import Mathlib

/-!
Shallow embedding of the Medi_Care backend client controller
(src/backend/src/controllers/client.controllers.js) and client model
(src/backend/src/models/client.model.js).

External collaborators are modelled as explicit data: the document store
is a list of client records threaded through every operation, signed JWTs
are an inductive datatype recording payload shape, signing-secret kind and
issue time, and bcrypt hashing is a prefix-tagging function whose compare
checks the tag. The sources of nondeterminism in the source (Math.random
for OTP generation, ObjectId allocation, the uploaded avatar URL and the
wall clock) are passed as explicit arguments. The mailer and SMS sender
are fire-and-forget side channels with no effect on the returned data, so
they are not represented. Times are milliseconds since the epoch, as in
JavaScript Date arithmetic.
-/

/-- Model of bcrypt.hash with its salt fixed: tags the input with a prefix.
Distinct inputs hash to distinct values, and a hash never equals its preimage. -/
def bhash (password : String) : String := "$2b$10$" ++ password

/-- Model of bcrypt.compare: succeeds exactly when the stored hash is the
hash of the supplied plaintext. -/
def bcompare (password stored : String) : Bool := stored == bhash password

/-- Signed JWTs, by payload shape and signing secret.
`access` is `generateAccessToken` from client.model.js: payload
`{_id, email, userType, tokenVersion}` under ACCESS_TOKEN_SECRET.
`accessBare` is the ad hoc access token minted inside `verifyOtp`: payload
`{_id}` under ACCESS_TOKEN_SECRET. `refresh` is `generateRefreshToken` and
also the ad hoc refresh token inside `verifyOtp`: payload `{_id}` under
REFRESH_TOKEN_SECRET. `emailTok` is the registration verification token:
payload `{email}` under EMAIL_SECRET. `iat` is the issue time, so two
tokens with the same payload signed at different times differ, as the
signed `iat` claim makes them differ in the source. -/
inductive Token where
  | access (id : Nat) (email : String) (tokenVersion : Nat) (iat : Nat)
  | accessBare (id : Nat) (iat : Nat)
  | refresh (id : Nat) (iat : Nat)
  | emailTok (email : String) (iat : Nat)
deriving DecidableEq

/-- REFRESH_TOKEN_EXPIRY from the environment, as a fixed duration in
milliseconds; its concrete value is configuration, not code. -/
def REFRESH_TOKEN_EXPIRY_MS : Nat := 864000000

/-- Model of jwt.verify with REFRESH_TOKEN_SECRET: accepts only a token of
the refresh shape that is not yet expired, and returns its `_id` payload. -/
def jwtVerifyRefresh (t : Token) (now : Nat) : Option Nat :=
  match t with
  | Token.refresh id iat => if now < iat + REFRESH_TOKEN_EXPIRY_MS then some id else none
  | _ => none

/-- One stored client document, after clientSchema in client.model.js.
`refreshToken` is nullable with default null (`none`). `otp` and
`otpExpires` are optional; both the `undefined` and the `null` cleared
states of the source are `none` here (the spec treats them as the same
cleared state). -/
structure Client where
  id : Nat
  name : String
  email : String
  age : Nat
  gender : String
  password : String
  phone : String
  avatar : String
  verified : Bool
  refreshToken : Option Token
  verificationToken : Option Token
  tokenVersion : Nat
  otp : Option String
  otpExpires : Option Nat
deriving DecidableEq

/-- The document store: a list of client documents. -/
abbrev DB := List Client

/-- Model of Client.findById. -/
def findById (db : DB) (i : Nat) : Option Client :=
  db.find? (fun c => c.id == i)

/-- Model of Client.findOne({email}). -/
def findByEmail (db : DB) (e : String) : Option Client :=
  db.find? (fun c => c.email == e)

/-- Model of saving a changed document: every document with the given id
is replaced by its image under `f` (ids are unique in the store, so this
is the single saved document). -/
def updateById (db : DB) (i : Nat) (f : Client → Client) : DB :=
  db.map (fun c => if c.id = i then f c else c)

/-- Structured errors: ApiError carries an HTTP status code and message;
`jwtInvalid` is the raw error thrown by jwt.verify on a bad or expired
token, which the controller does not catch. -/
inductive Err where
  | api (statusCode : Nat) (message : String)
  | jwtInvalid
deriving DecidableEq

deriving instance DecidableEq for Except

/-- A serialized client as one response renders it. A field that the
query projection excluded, or that is unset on the document, is `none`. -/
structure ClientView where
  id : Nat
  name : String
  email : String
  age : Nat
  gender : String
  phone : String
  avatar : String
  verified : Bool
  password : Option String
  refreshToken : Option Token
  verificationToken : Option Token
  otp : Option String
  otpExpires : Option Nat
deriving DecidableEq

/-- Projection used by loginClient: select("-password -refreshToken").
Only password and refreshToken are excluded. -/
def selectLoginView (c : Client) : ClientView :=
  { id := c.id, name := c.name, email := c.email, age := c.age, gender := c.gender,
    phone := c.phone, avatar := c.avatar, verified := c.verified,
    password := none, refreshToken := none,
    verificationToken := c.verificationToken, otp := c.otp, otpExpires := c.otpExpires }

/-- Projection used by getCurrentClient:
select("-password -refreshToken -otp -otpExpires -__v"). -/
def selectCurrentView (c : Client) : ClientView :=
  { id := c.id, name := c.name, email := c.email, age := c.age, gender := c.gender,
    phone := c.phone, avatar := c.avatar, verified := c.verified,
    password := none, refreshToken := none,
    verificationToken := c.verificationToken, otp := none, otpExpires := none }

/-- Projection used by getAllClients and getClientById:
select("-password -refreshToken -otp -otpExpires -verificationToken"). -/
def selectPublicView (c : Client) : ClientView :=
  { id := c.id, name := c.name, email := c.email, age := c.age, gender := c.gender,
    phone := c.phone, avatar := c.avatar, verified := c.verified,
    password := none, refreshToken := none,
    verificationToken := none, otp := none, otpExpires := none }

/-- The update written by generateAccessRefreshTokens before its save. -/
def setRefreshToken (t : Token) (c : Client) : Client :=
  { c with refreshToken := some t }

/-- generateAccessRefreshTokens from client.controllers.js: loads the
client, signs both tokens, persists the refresh token on the record and
returns the pair together with the store after the save. The source also
rejects a missing clientId with a 400; in this model an id argument is
always present, so only the lookup failure remains. -/
def generateAccessRefreshTokens (clientId : Nat) (now : Nat) (db : DB) :
    Except Err (Token × Token × DB) :=
  match findById db clientId with
  | none => Except.error (Err.api 400 "No client found with that ID")
  | some client =>
    let accessToken := Token.access client.id client.email client.tokenVersion now
    let refreshToken := Token.refresh client.id now
    Except.ok (accessToken, refreshToken, updateById db client.id (setRefreshToken refreshToken))

/-- Model of Math.floor(100000 + Math.random() * 900000).toString(), with
the random draw supplied as an argument. -/
def generateOTP (rand : Nat) : String := toString (100000 + rand % 900000)

/-- Request body of registerClient and updateClient. `age` is numeric in
the schema; its toString is never blank, so only the string fields can
fail the blank check. -/
structure RegisterInput where
  name : String
  email : String
  phone : String
  password : String
  age : Nat
  gender : String
deriving DecidableEq

/-- One field failing the `!field?.toString().trim()` presence check: the
trimmed string is empty exactly when every character is whitespace. -/
def blankField (s : String) : Bool := s.toList.all (fun ch => ch.isWhitespace)

/-- The registerClient validation: some required field is blank. -/
def registerValidationFails (inp : RegisterInput) : Bool :=
  blankField inp.name || blankField inp.email || blankField inp.phone ||
    blankField inp.password || blankField inp.gender

/-- Response of registerClient: the created document is returned raw (no
projection is applied to it), together with the token pair set as
cookies. -/
structure RegisterResult where
  client : Client
  accessToken : Token
  refreshToken : Token
deriving DecidableEq

/-- The document Client.create builds inside registerClient. `avatarUrl`
is the blob store URL for an uploaded file, if any; `rand` the
Math.random draw; `newId` the ObjectId the store allocates; `now` the
wall clock. The pre-save hook of the schema hashes the plaintext password
once during Client.create. -/
def mkNewClient (inp : RegisterInput) (avatarUrl : Option String)
    (rand newId now : Nat) : Client :=
  { id := newId, name := inp.name, email := inp.email, age := inp.age,
    gender := inp.gender, password := bhash inp.password, phone := inp.phone,
    avatar := avatarUrl.getD "", verified := false, refreshToken := none,
    verificationToken := some (Token.emailTok inp.email now), tokenVersion := 0,
    otp := some (generateOTP rand), otpExpires := some (now + 5 * 60 * 1000) }

/-- registerClient from client.controllers.js: field presence check,
uniqueness check on email and phone, creation of the unverified document
with OTP and expiry, then token issuance. The OTP mail and SMS sends have
no effect on the returned data and are omitted. The document placed in
the response is the in-memory create result, which does not see the
refresh-token save done by generateAccessRefreshTokens on a separately
loaded document. -/
def registerClient (inp : RegisterInput) (avatarUrl : Option String)
    (rand newId now : Nat) (db : DB) : Except Err (RegisterResult × DB) :=
  if registerValidationFails inp then
    Except.error (Err.api 400 "All fields are required")
  else if db.any (fun c => c.email == inp.email || c.phone == inp.phone) then
    Except.error (Err.api 400 "Email or phone already exists")
  else
    let newClient : Client := mkNewClient inp avatarUrl rand newId now
    match generateAccessRefreshTokens newId now (db ++ [newClient]) with
    | Except.error e => Except.error e
    | Except.ok (atk, rtk, db2) =>
      Except.ok ({ client := newClient, accessToken := atk, refreshToken := rtk }, db2)

/-- Response of loginClient: the re-fetched projected document (null if
the re-fetch finds nothing, as in the source) plus the token pair. -/
structure LoginResult where
  client : Option ClientView
  accessToken : Token
  refreshToken : Token
deriving DecidableEq

/-- loginClient from client.controllers.js: 404 on unknown email, 401 on
password mismatch, 401 on an unverified account, then token issuance and
a re-fetch of the record with password and refreshToken stripped. -/
def loginClient (email password : String) (now : Nat) (db : DB) :
    Except Err (LoginResult × DB) :=
  match findByEmail db email with
  | none => Except.error (Err.api 404 "Requested user does not exist")
  | some client =>
    if !(bcompare password client.password) then
      Except.error (Err.api 401 "Invalid user credentials")
    else if !client.verified then
      Except.error (Err.api 401 "Please verify your email first")
    else
      match generateAccessRefreshTokens client.id now db with
      | Except.error e => Except.error e
      | Except.ok (atk, rtk, db2) =>
        Except.ok ({ client := (findById db2 client.id).map selectLoginView,
                     accessToken := atk, refreshToken := rtk }, db2)

/-- The expiry test `client.otpExpires < new Date()` of verifyEmail: an
unset expiry compares as not expired there (undefined comparisons are
false in JavaScript). -/
def otpExpiredUndef (e : Option Nat) (now : Nat) : Bool :=
  match e with
  | some t => decide (t < now)
  | none => false

/-- The expiry test `client.otpExpires < Date.now()` of verifyOtp on a
record whose expiry was cleared to null: null coerces to 0, so it counts
as expired. On a set expiry both tests agree. -/
def otpExpiredNull (e : Option Nat) (now : Nat) : Bool :=
  match e with
  | some t => decide (t < now)
  | none => decide (0 < now)

/-- The successful-verification write shared by verifyEmail and
verifyOtp: sets verified and clears both OTP fields (the source clears
with undefined in one path and null in the other; both are `none` here). -/
def markVerified (c : Client) : Client :=
  { c with verified := true, otp := none, otpExpires := none }

/-- verifyEmail from client.controllers.js, keyed by email: requires both
inputs present, 400 on unknown email, 400 on OTP mismatch or expiry, and
on success saves the record with verified set and the OTP fields cleared. -/
def verifyEmail (email otp : String) (now : Nat) (db : DB) : Except Err DB :=
  if email == "" || otp == "" then
    Except.error (Err.api 400 "Email and OTP are required")
  else
    match findByEmail db email with
    | none => Except.error (Err.api 400 "Client not found")
    | some client =>
      if client.otp != some otp || otpExpiredUndef client.otpExpires now then
        Except.error (Err.api 400 "Invalid or expired OTP")
      else
        Except.ok (updateById db client.id markVerified)

/-- Response of verifyOtp: the freshly signed ad hoc token pair (set as
cookies) and the client id echoed in the body. -/
structure VerifyOtpResult where
  clientId : Nat
  accessToken : Token
  refreshToken : Token
deriving DecidableEq

/-- verifyOtp from client.controllers.js, keyed by client id: requires
the OTP present, 404 on unknown id, 400 on OTP mismatch or expiry; on
success saves the record with verified set and the OTP fields cleared and
then signs a fresh token pair directly with jwt.sign. The minted refresh
token is never written to the record. -/
def verifyOtp (clientId : Nat) (otp : String) (now : Nat) (db : DB) :
    Except Err (VerifyOtpResult × DB) :=
  if otp == "" then
    Except.error (Err.api 400 "Client ID and OTP are required")
  else
    match findById db clientId with
    | none => Except.error (Err.api 404 "Client not found")
    | some client =>
      if client.otp != some otp || otpExpiredNull client.otpExpires now then
        Except.error (Err.api 400 "Invalid or expired OTP")
      else
        Except.ok ({ clientId := client.id,
                     accessToken := Token.accessBare client.id now,
                     refreshToken := Token.refresh client.id now },
                   updateById db client.id markVerified)

/-- logoutClient: findByIdAndUpdate(id, {refreshToken: null}). -/
def logoutClient (clientId : Nat) (db : DB) : DB :=
  updateById db clientId (fun c => { c with refreshToken := none })

/-- updateClient from client.controllers.js: loads the authenticated
client, re-checks email/phone uniqueness against other records when
either changed, hashes a supplied non-empty password in the controller,
replaces the avatar if a file was uploaded, merges the body fields, and
saves. Because the controller already wrote a hash into the password
path, the pre-save hook sees the path modified and hashes it a second
time. The saved document is returned raw in the response. -/
def updateClient (clientId : Nat) (inp : RegisterInput) (avatarUrl : Option String)
    (db : DB) : Except Err (Client × DB) :=
  match findById db clientId with
  | none => Except.error (Err.api 404 "Client not found")
  | some client =>
    if (inp.email != client.email || inp.phone != client.phone) &&
        db.any (fun c => (c.email == inp.email || c.phone == inp.phone) && c.id != client.id) then
      Except.error (Err.api 400 "Email or phone already in use")
    else
      let pwModified := inp.password != ""
      let c1 := if pwModified then { client with password := bhash inp.password } else client
      let c2 := match avatarUrl with
        | some url => { c1 with avatar := url }
        | none => c1
      let c3 := { c2 with
        name := inp.name, email := inp.email, phone := inp.phone, age := inp.age,
        gender := inp.gender }
      let c4 := if pwModified then { c3 with password := bhash c3.password } else c3
      Except.ok (c4, updateById db clientId (fun _ => c4))

/-- refreshAccessToken from client.controllers.js: 401 when no token is
presented in cookie or body; jwt.verify (whose failure is an uncaught
raw error); 401 when the subject is unknown or the presented token is not
the stored one; otherwise issuance of a fresh pair through
generateAccessRefreshTokens, which overwrites the stored refresh token. -/
def refreshAccessToken (incomingToken : Option Token) (now : Nat) (db : DB) :
    Except Err (Token × Token × DB) :=
  match incomingToken with
  | none => Except.error (Err.api 401 "Unauthorized request")
  | some tok =>
    match jwtVerifyRefresh tok now with
    | none => Except.error Err.jwtInvalid
    | some decodedId =>
      match findById db decodedId with
      | none => Except.error (Err.api 401 "Invalid or expired refresh token")
      | some client =>
        if client.refreshToken != some tok then
          Except.error (Err.api 401 "Invalid or expired refresh token")
        else
          generateAccessRefreshTokens client.id now db

/-- getCurrentClient: re-fetch of the authenticated client with the
sensitive fields stripped; a missing record yields a null body. -/
def getCurrentClient (clientId : Nat) (db : DB) : Option ClientView :=
  (findById db clientId).map selectCurrentView

/-- Pagination metadata of the getAllClients response. -/
structure PageMeta where
  currentPage : Nat
  totalPages : Nat
  totalClients : Nat
  hasNextPage : Bool
  hasPrevPage : Bool
deriving DecidableEq

/-- The getAllClients filter: an optional verified flag (already parsed
from the query string) and an optional gender (absent when the query
value is falsy). -/
def matchesFilter (verifiedF : Option Bool) (genderF : Option String) (c : Client) : Bool :=
  (match verifiedF with
   | some v => c.verified == v
   | none => true) &&
  (match genderF with
   | some g => c.gender == g
   | none => true)

/-- Insertion into a list sorted by the comparator. -/
def insertSorted (le : Client → Client → Bool) (c : Client) : List Client → List Client
  | [] => [c]
  | d :: ds => if le c d then c :: d :: ds else d :: insertSorted le c ds

/-- The store-level sort of getAllClients, as a comparator-driven sort;
the sortBy/sortOrder query parameters denote the comparator. -/
def sortClients (le : Client → Client → Bool) (l : List Client) : List Client :=
  l.foldr (insertSorted le) []

/-- getAllClients from client.controllers.js: filter, sort, skip
(page-1)*limit, take limit, project the public view, and compute
Math.ceil(totalClients/limit) and the page flags. `page` and `limit` are
the already-parsed positive query integers (the source defaults are 1 and
10). -/
def getAllClients (page limit : Nat) (verifiedF : Option Bool) (genderF : Option String)
    (sortLe : Client → Client → Bool) (db : DB) : List ClientView × PageMeta :=
  let filtered := db.filter (matchesFilter verifiedF genderF)
  let totalClients := filtered.length
  let totalPages := (totalClients + limit - 1) / limit
  ((((sortClients sortLe filtered).drop ((page - 1) * limit)).take limit).map selectPublicView,
   { currentPage := page, totalPages := totalPages, totalClients := totalClients,
     hasNextPage := decide (page < totalPages), hasPrevPage := decide (1 < page) })

/-- getClientById: 404 on an unknown id, otherwise the public view. -/
def getClientById (clientId : Nat) (db : DB) : Except Err ClientView :=
  match findById db clientId with
  | none => Except.error (Err.api 404 "Client not found")
  | some c => Except.ok (selectPublicView c)

/-! ### Store lemmas -/

/-- A document found by id carries that id. -/
theorem findById_id {db : DB} {i : Nat} {c : Client} (h : findById db i = some c) :
    c.id = i := by
  have := List.find?_some h
  simpa using this

/-- A document found by email carries that email. -/
theorem findByEmail_email {db : DB} {e : String} {c : Client} (h : findByEmail db e = some c) :
    c.email = e := by
  have := List.find?_some h
  simpa using this

/-- A document found by id is in the store. -/
theorem mem_of_findById {db : DB} {i : Nat} {c : Client} (h : findById db i = some c) :
    c ∈ db :=
  List.mem_of_find?_eq_some h

/-- Looking a document up after a save that does not move documents across
ids: the lookup result is the image of the old lookup result. -/
theorem findById_updateById (db : DB) (i j : Nat) (f : Client → Client)
    (hf : ∀ c, c.id = i → (f c).id = i) :
    findById (updateById db i f) j =
      (findById db j).map (fun c => if c.id = i then f c else c) := by
  induction db with
  | nil => rfl
  | cons c cs ih =>
    have hgc : (if c.id = i then f c else c).id = c.id := by
      by_cases h : c.id = i
      · simp [h, hf c h]
      · simp [h]
    by_cases hp : c.id = j
    · have h1 : (if c.id = i then f c else c).id = j := by rw [hgc]; exact hp
      simp only [updateById, List.map_cons, findById]
      rw [List.find?_cons_of_pos _ (by simp [h1]), List.find?_cons_of_pos _ (by simp [hp])]
      rfl
    · have h1 : ¬(if c.id = i then f c else c).id = j := by rw [hgc]; exact hp
      simp only [updateById, List.map_cons, findById]
      rw [List.find?_cons_of_neg _ (by simp [h1]), List.find?_cons_of_neg _ (by simp [hp])]
      exact ih

/-- Looking a document up by email after a save that changes neither ids
nor the email of the saved document. -/
theorem findByEmail_updateById (db : DB) (i : Nat) (e : String) (f : Client → Client)
    (hf : ∀ c, c.id = i → (f c).email = c.email) :
    findByEmail (updateById db i f) e =
      (findByEmail db e).map (fun c => if c.id = i then f c else c) := by
  induction db with
  | nil => rfl
  | cons c cs ih =>
    have hgc : (if c.id = i then f c else c).email = c.email := by
      by_cases h : c.id = i
      · simp [h, hf c h]
      · simp [h]
    by_cases hp : c.email = e
    · have h1 : (if c.id = i then f c else c).email = e := by rw [hgc]; exact hp
      simp only [updateById, List.map_cons, findByEmail]
      rw [List.find?_cons_of_pos _ (by simp [h1]), List.find?_cons_of_pos _ (by simp [hp])]
      rfl
    · have h1 : ¬(if c.id = i then f c else c).email = e := by rw [hgc]; exact hp
      simp only [updateById, List.map_cons, findByEmail]
      rw [List.find?_cons_of_neg _ (by simp [h1]), List.find?_cons_of_neg _ (by simp [hp])]
      exact ih

/-- Success characterization of generateAccessRefreshTokens. -/
theorem generateTokens_ok {i now : Nat} {db : DB} {atk rtk : Token} {db2 : DB}
    (h : generateAccessRefreshTokens i now db = Except.ok (atk, rtk, db2)) :
    ∃ c, findById db i = some c ∧ c.id = i ∧
      atk = Token.access i c.email c.tokenVersion now ∧
      rtk = Token.refresh i now ∧
      db2 = updateById db i (setRefreshToken (Token.refresh i now)) := by
  cases hc : findById db i with
  | none =>
    simp only [generateAccessRefreshTokens, hc] at h
    exact Except.noConfusion h
  | some c =>
    have hid := findById_id hc
    simp only [generateAccessRefreshTokens, hc, Except.ok.injEq, Prod.mk.injEq] at h
    refine ⟨c, rfl, hid, ?_, ?_, ?_⟩
    · rw [← h.1, hid]
    · rw [← h.2.1, hid]
    · rw [← h.2.2, hid]

/-- Forward evaluation of generateAccessRefreshTokens on a found client. -/
theorem generateTokens_spec {i now : Nat} {db : DB} {c : Client}
    (hc : findById db i = some c) :
    generateAccessRefreshTokens i now db =
      Except.ok (Token.access i c.email c.tokenVersion now, Token.refresh i now,
        updateById db i (setRefreshToken (Token.refresh i now))) := by
  have hid := findById_id hc
  simp only [generateAccessRefreshTokens, hc, hid]

/-- Success characterization of registerClient. -/
theorem registerClient_ok {inp : RegisterInput} {av : Option String}
    {rand newId now : Nat} {db : DB} {res : RegisterResult} {db2 : DB}
    (h : registerClient inp av rand newId now db = Except.ok (res, db2)) :
    registerValidationFails inp = false
    ∧ db.any (fun c => c.email == inp.email || c.phone == inp.phone) = false
    ∧ res.client = mkNewClient inp av rand newId now
    ∧ res.refreshToken = Token.refresh newId now
    ∧ db2 = updateById (db ++ [mkNewClient inp av rand newId now]) newId
        (setRefreshToken (Token.refresh newId now)) := by
  simp only [registerClient] at h
  split at h
  · exact Except.noConfusion h
  split at h
  · exact Except.noConfusion h
  rename_i hval hconf
  cases hg : generateAccessRefreshTokens newId now (db ++ [mkNewClient inp av rand newId now]) with
  | error e =>
    simp only [hg] at h
    exact Except.noConfusion h
  | ok t =>
    obtain ⟨atk, rtk, dbt⟩ := t
    simp only [hg, Except.ok.injEq, Prod.mk.injEq] at h
    obtain ⟨c, hfind, hcid, hatk, hrtk, hdbt⟩ := generateTokens_ok hg
    refine ⟨by simpa using hval, by simpa using hconf, ?_, ?_, ?_⟩
    · rw [← h.1]
    · rw [← h.1, hrtk]
    · rw [← h.2, hdbt]

/-- Success characterization of loginClient. -/
theorem loginClient_ok {email pw : String} {now : Nat} {db : DB} {res : LoginResult} {db2 : DB}
    (h : loginClient email pw now db = Except.ok (res, db2)) :
    ∃ c, findByEmail db email = some c ∧ bcompare pw c.password = true ∧ c.verified = true
      ∧ res.refreshToken = Token.refresh c.id now
      ∧ db2 = updateById db c.id (setRefreshToken (Token.refresh c.id now))
      ∧ res.client = (findById db2 c.id).map selectLoginView := by
  simp only [loginClient] at h
  cases hfe : findByEmail db email with
  | none =>
    simp only [hfe] at h
    exact Except.noConfusion h
  | some c =>
    simp only [hfe] at h
    split at h
    · exact Except.noConfusion h
    split at h
    · exact Except.noConfusion h
    rename_i hbc hver
    cases hg : generateAccessRefreshTokens c.id now db with
    | error e =>
      simp only [hg] at h
      exact Except.noConfusion h
    | ok t =>
      obtain ⟨atk, rtk, dbt⟩ := t
      simp only [hg, Except.ok.injEq, Prod.mk.injEq] at h
      obtain ⟨c2, hfind, hcid, hatk, hrtk, hdbt⟩ := generateTokens_ok hg
      obtain ⟨hres, hdb2⟩ := h
      subst hres
      subst hdb2
      subst hdbt
      refine ⟨c, rfl, by simpa using hbc, by simpa using hver, by simpa using hrtk, rfl, rfl⟩

/-- Success characterization of verifyEmail. -/
theorem verifyEmail_ok {email code : String} {now : Nat} {db db2 : DB}
    (h : verifyEmail email code now db = Except.ok db2) :
    email ≠ "" ∧ code ≠ "" ∧
    ∃ c, findByEmail db email = some c ∧ c.otp = some code
      ∧ otpExpiredUndef c.otpExpires now = false
      ∧ db2 = updateById db c.id markVerified := by
  simp only [verifyEmail] at h
  split at h
  · exact Except.noConfusion h
  rename_i hne
  cases hfe : findByEmail db email with
  | none =>
    simp only [hfe] at h
    exact Except.noConfusion h
  | some c =>
    simp only [hfe] at h
    split at h
    · exact Except.noConfusion h
    rename_i hcond
    simp only [Except.ok.injEq] at h
    subst h
    simp only [Bool.or_eq_true, not_or] at hne
    simp only [Bool.or_eq_true, bne_iff_ne, ne_eq, not_or, not_not,
      Bool.not_eq_true] at hcond
    exact ⟨by simpa using hne.1, by simpa using hne.2, c, rfl, hcond.1, hcond.2, rfl⟩

/-- Success characterization of verifyOtp. -/
theorem verifyOtp_ok {cid : Nat} {code : String} {now : Nat} {db : DB}
    {res : VerifyOtpResult} {db2 : DB}
    (h : verifyOtp cid code now db = Except.ok (res, db2)) :
    code ≠ "" ∧
    ∃ c, findById db cid = some c ∧ c.otp = some code
      ∧ otpExpiredNull c.otpExpires now = false
      ∧ res = { clientId := cid, accessToken := Token.accessBare cid now,
                refreshToken := Token.refresh cid now }
      ∧ db2 = updateById db cid markVerified := by
  simp only [verifyOtp] at h
  split at h
  · exact Except.noConfusion h
  rename_i hne
  cases hfi : findById db cid with
  | none =>
    simp only [hfi] at h
    exact Except.noConfusion h
  | some c =>
    have hcid := findById_id hfi
    simp only [hfi] at h
    split at h
    · exact Except.noConfusion h
    rename_i hcond
    simp only [Except.ok.injEq, Prod.mk.injEq] at h
    obtain ⟨hres, hdb2⟩ := h
    simp only [Bool.or_eq_true, bne_iff_ne, ne_eq, not_or, not_not,
      Bool.not_eq_true] at hcond
    refine ⟨by simpa using hne, c, rfl, hcond.1, hcond.2, ?_, ?_⟩
    · rw [← hres, hcid]
    · rw [← hdb2, hcid]

/-- Success characterization of updateClient. -/
theorem updateClient_ok {cid : Nat} {inp : RegisterInput} {av : Option String}
    {db : DB} {v : Client} {db2 : DB}
    (h : updateClient cid inp av db = Except.ok (v, db2)) :
    ∃ c, findById db cid = some c ∧ v.id = cid ∧ v.otp = c.otp ∧ v.otpExpires = c.otpExpires
      ∧ (inp.password ≠ "" → v.password = bhash (bhash inp.password))
      ∧ db2 = updateById db cid (fun _ => v) := by
  simp only [updateClient] at h
  cases hfi : findById db cid with
  | none =>
    simp only [hfi] at h
    exact Except.noConfusion h
  | some c =>
    have hcid := findById_id hfi
    simp only [hfi] at h
    split at h
    · exact Except.noConfusion h
    rename_i hconf
    simp only [Except.ok.injEq, Prod.mk.injEq] at h
    obtain ⟨hv, hdb2⟩ := h
    subst hv
    refine ⟨c, rfl, ?_, ?_, ?_, ?_, hdb2.symm⟩
    · by_cases hpw : (inp.password != "") = true <;> cases av <;> simp [hpw, hcid]
    · by_cases hpw : (inp.password != "") = true <;> cases av <;> simp [hpw]
    · by_cases hpw : (inp.password != "") = true <;> cases av <;> simp [hpw]
    · intro hne
      have hpw : (inp.password != "") = true := by simpa using hne
      cases av <;> simp [hpw]

/-- Success characterization of refreshAccessToken. -/
theorem refreshAccessToken_ok {tokIn : Option Token} {now : Nat} {db : DB}
    {atk rtk : Token} {db2 : DB}
    (h : refreshAccessToken tokIn now db = Except.ok (atk, rtk, db2)) :
    ∃ tok c, tokIn = some tok ∧ jwtVerifyRefresh tok now = some c.id
      ∧ findById db c.id = some c ∧ c.refreshToken = some tok
      ∧ rtk = Token.refresh c.id now
      ∧ db2 = updateById db c.id (setRefreshToken (Token.refresh c.id now)) := by
  cases tokIn with
  | none =>
    simp only [refreshAccessToken] at h
    exact Except.noConfusion h
  | some tok =>
    simp only [refreshAccessToken] at h
    cases hjv : jwtVerifyRefresh tok now with
    | none =>
      simp only [hjv] at h
      exact Except.noConfusion h
    | some did =>
      simp only [hjv] at h
      cases hfi : findById db did with
      | none =>
        simp only [hfi] at h
        exact Except.noConfusion h
      | some c =>
        have hcid := findById_id hfi
        simp only [hfi] at h
        split at h
        · exact Except.noConfusion h
        rename_i hmatch
        obtain ⟨c2, hfind2, hcid2, hatk2, hrtk2, hdbeq⟩ := generateTokens_ok h
        refine ⟨tok, c, rfl, by rwa [hcid], by rwa [hcid], ?_, hrtk2, hdbeq⟩
        simpa using hmatch

/-- Some document with a given id exists whenever a client with that id
is in the store. -/
theorem findById_isSome_of_mem {db : DB} {c : Client} (h : c ∈ db) :
    ∃ d, findById db c.id = some d := by
  have hs : (db.find? (fun x => x.id == c.id)).isSome := by
    rw [List.find?_isSome]
    exact ⟨c, h, by simp⟩
  exact Option.isSome_iff_exists.mp hs

/-- After the save done by generateAccessRefreshTokens, the subject
record stores exactly the token that was written. -/
theorem findById_after_setRefreshToken {db : DB} {i : Nat} {t : Token} {c : Client}
    (hc : findById db i = some c) :
    (findById (updateById db i (setRefreshToken t)) i).map Client.refreshToken
      = some (some t) := by
  rw [findById_updateById db i i (setRefreshToken t) (fun d hd => hd)]
  rw [hc]
  have hcid := findById_id hc
  simp [hcid, setRefreshToken]

/-! ### Concrete sample data -/

/-- A concrete verified client record. -/
def sampleClient : Client :=
  { id := 1, name := "Asha", email := "asha@example.com", age := 30, gender := "Female",
    password := bhash "secret1", phone := "+15550000001", avatar := "",
    verified := true, refreshToken := none, verificationToken := none,
    tokenVersion := 0, otp := none, otpExpires := none }

/-- The same client while still pending OTP verification. -/
def pendingClient : Client :=
  { sampleClient with verified := false, otp := some "123456", otpExpires := some 1000 }

/-- A concrete registration request body. -/
def sampleInput : RegisterInput :=
  { name := "Asha", email := "asha@example.com", phone := "+15550000001",
    password := "secret1", age := 30, gender := "Female" }

/-! ### Claim C1 -/

/-- Claim C1 (amended): for the operations that issue a refresh token
through the persisted path (registration, login, token refresh), the
issued refresh token is persisted on the client record, so immediately
after the operation the refresh token returned to the caller equals the
refreshToken field stored on that record. The claim as frozen also
includes the id-keyed OTP verification, but verifyOtp mints its refresh
token without persisting it; see the counterexample. -/
theorem issued_refresh_token_persisted :
    (∀ inp av rand newId now db res db2,
      registerClient inp av rand newId now db = Except.ok (res, db2) →
      (findById db2 newId).map Client.refreshToken = some (some res.refreshToken))
    ∧ (∀ email pw now db res db2,
      loginClient email pw now db = Except.ok (res, db2) →
      ∃ c, findByEmail db email = some c ∧
        (findById db2 c.id).map Client.refreshToken = some (some res.refreshToken))
    ∧ (∀ tokIn now db atk rtk db2,
      refreshAccessToken tokIn now db = Except.ok (atk, rtk, db2) →
      ∃ c, findById db c.id = some c ∧
        (findById db2 c.id).map Client.refreshToken = some (some rtk)) := by
  refine ⟨?_, ?_, ?_⟩
  · intro inp av rand newId now db res db2 h
    obtain ⟨hval, hconf, hclient, hrtk, hdb2⟩ := registerClient_ok h
    have hmem : mkNewClient inp av rand newId now ∈ db ++ [mkNewClient inp av rand newId now] := by
      simp
    have hid : (mkNewClient inp av rand newId now).id = newId := rfl
    obtain ⟨d, hd⟩ := findById_isSome_of_mem hmem
    rw [hid] at hd
    rw [hdb2, hrtk]
    exact findById_after_setRefreshToken hd
  · intro email pw now db res db2 h
    obtain ⟨c, hfe, hbc, hver, hrtk, hdb2, hcv⟩ := loginClient_ok h
    have hmem : c ∈ db := List.mem_of_find?_eq_some hfe
    obtain ⟨d, hd⟩ := findById_isSome_of_mem hmem
    rw [hdb2, hrtk]
    exact ⟨c, hfe, findById_after_setRefreshToken hd⟩
  · intro tokIn now db atk rtk db2 h
    obtain ⟨tok, c, htok, hjv, hfi, hstored, hrtk, hdb2⟩ := refreshAccessToken_ok h
    rw [hdb2, hrtk]
    exact ⟨c, hfi, findById_after_setRefreshToken hfi⟩

/-- Witness for claim C1 at a concrete login: the token returned by the
login equals the one stored on the record afterwards. -/
theorem issued_refresh_token_persisted_witness :
    ∃ c, findByEmail [sampleClient] "asha@example.com" = some c ∧
      (findById [setRefreshToken (Token.refresh 1 7) sampleClient] c.id).map
        Client.refreshToken = some (some (Token.refresh 1 7)) :=
  issued_refresh_token_persisted.2.1 "asha@example.com" "secret1" 7 [sampleClient]
    { client := some (selectLoginView sampleClient),
      accessToken := Token.access 1 "asha@example.com" 0 7,
      refreshToken := Token.refresh 1 7 }
    [setRefreshToken (Token.refresh 1 7) sampleClient] (by decide)

/-- Claim C1 as frozen is false on the code: the id-keyed OTP
verification issues a refresh token that it never persists. On a store
holding the pending client, verifyOtp succeeds and returns the fresh
refresh token, but the refreshToken stored on the record is still none,
which is not the returned token. -/
theorem verifyOtp_refresh_not_persisted_cex :
    (verifyOtp 1 "123456" 500 [pendingClient]).toOption.map
        (fun r => r.1.refreshToken) = some (Token.refresh 1 500)
    ∧ ((verifyOtp 1 "123456" 500 [pendingClient]).toOption.bind
        (fun r => findById r.2 1)).map Client.refreshToken = some none
    ∧ (none : Option Token) ≠ some (Token.refresh 1 500) := by decide

/-! ### Claim C10 -/

/-- Claim C10: the 201 registration response carries the created document
with no field redaction: the hashed password, the plaintext otp, the
otpExpires timestamp and the verificationToken are all present on it. -/
theorem register_response_unredacted :
    ∀ inp av rand newId now db res db2,
      registerClient inp av rand newId now db = Except.ok (res, db2) →
      res.client.password = bhash inp.password
      ∧ res.client.otp = some (generateOTP rand)
      ∧ res.client.otpExpires = some (now + 5 * 60 * 1000)
      ∧ res.client.verificationToken = some (Token.emailTok inp.email now) := by
  intro inp av rand newId now db res db2 h
  obtain ⟨hval, hconf, hclient, hrtk, hdb2⟩ := registerClient_ok h
  rw [hclient]
  exact ⟨rfl, rfl, rfl, rfl⟩

/-- Witness for claim C10 at a concrete registration on an empty store. -/
theorem register_response_unredacted_witness :
    (mkNewClient sampleInput none 42 1 100).password = bhash sampleInput.password
    ∧ (mkNewClient sampleInput none 42 1 100).otp = some (generateOTP 42)
    ∧ (mkNewClient sampleInput none 42 1 100).otpExpires = some (100 + 5 * 60 * 1000)
    ∧ (mkNewClient sampleInput none 42 1 100).verificationToken
        = some (Token.emailTok sampleInput.email 100) :=
  register_response_unredacted sampleInput none 42 1 100 []
    { client := mkNewClient sampleInput none 42 1 100,
      accessToken := Token.access 1 "asha@example.com" 0 100,
      refreshToken := Token.refresh 1 100 }
    [setRefreshToken (Token.refresh 1 100) (mkNewClient sampleInput none 42 1 100)]
    (by decide)

/-! ### Claim C2 -/

/-- Claim C2 (amended): the success responses of getCurrentClient,
getAllClients and getClientById never contain the password, refreshToken,
otp or otpExpires fields; the login success response strips only password
and refreshToken, so it retains the otp and otpExpires of the record. -/
theorem sanitized_outputs_redaction :
    (∀ cid db v, getCurrentClient cid db = some v →
      v.password = none ∧ v.refreshToken = none ∧ v.otp = none ∧ v.otpExpires = none)
    ∧ (∀ page limit vf gf sortLe db v,
      v ∈ (getAllClients page limit vf gf sortLe db).1 →
      v.password = none ∧ v.refreshToken = none ∧ v.otp = none ∧ v.otpExpires = none)
    ∧ (∀ cid db v, getClientById cid db = Except.ok v →
      v.password = none ∧ v.refreshToken = none ∧ v.otp = none ∧ v.otpExpires = none)
    ∧ (∀ email pw now db res db2 v,
      loginClient email pw now db = Except.ok (res, db2) → res.client = some v →
      v.password = none ∧ v.refreshToken = none) := by
  refine ⟨?_, ?_, ?_, ?_⟩
  · intro cid db v h
    simp only [getCurrentClient, Option.map_eq_some'] at h
    obtain ⟨c, hc, rfl⟩ := h
    exact ⟨rfl, rfl, rfl, rfl⟩
  · intro page limit vf gf sortLe db v h
    simp only [getAllClients, List.mem_map] at h
    obtain ⟨c, hc, rfl⟩ := h
    exact ⟨rfl, rfl, rfl, rfl⟩
  · intro cid db v h
    simp only [getClientById] at h
    cases hfi : findById db cid with
    | none =>
      simp only [hfi] at h
      exact Except.noConfusion h
    | some c =>
      simp only [hfi, Except.ok.injEq] at h
      subst h
      exact ⟨rfl, rfl, rfl, rfl⟩
  · intro email pw now db res db2 v h hv
    obtain ⟨c, hfe, hbc, hver, hrtk, hdb2, hcv⟩ := loginClient_ok h
    rw [hcv] at hv
    simp only [Option.map_eq_some'] at hv
    obtain ⟨d, hd, rfl⟩ := hv
    exact ⟨rfl, rfl⟩

/-- Witness for claim C2 at concrete getCurrentClient and login calls. -/
theorem sanitized_outputs_redaction_witness :
    ((selectCurrentView sampleClient).password = none
      ∧ (selectCurrentView sampleClient).refreshToken = none
      ∧ (selectCurrentView sampleClient).otp = none
      ∧ (selectCurrentView sampleClient).otpExpires = none)
    ∧ ((selectLoginView sampleClient).password = none
      ∧ (selectLoginView sampleClient).refreshToken = none) :=
  ⟨sanitized_outputs_redaction.1 1 [sampleClient] (selectCurrentView sampleClient) (by decide),
   sanitized_outputs_redaction.2.2.2 "asha@example.com" "secret1" 7 [sampleClient]
     { client := some (selectLoginView sampleClient),
       accessToken := Token.access 1 "asha@example.com" 0 7,
       refreshToken := Token.refresh 1 7 }
     [setRefreshToken (Token.refresh 1 7) sampleClient]
     (selectLoginView sampleClient) (by decide) (by decide)⟩

/-- A verified client record that still carries an OTP and expiry. -/
def otpSetClient : Client :=
  { sampleClient with otp := some "999999", otpExpires := some 99 }

/-- Claim C2 as frozen is false on the code: the login projection strips
only password and refreshToken, so the login success response for a
record whose otp and otpExpires are set contains both fields. -/
theorem login_response_contains_otp_cex :
    ((loginClient "asha@example.com" "secret1" 5 [otpSetClient]).toOption.bind
        (fun r => r.1.client)).map ClientView.otp = some (some "999999")
    ∧ ((loginClient "asha@example.com" "secret1" 5 [otpSetClient]).toOption.bind
        (fun r => r.1.client)).map ClientView.otpExpires = some (some 99)
    ∧ some (some "999999") ≠ (some (none : Option String)) := by decide

/-! ### Claim C4 -/

/-- Claim C4: login fails 404 when no record matches the email, else 401
when the password does not verify, else 401 when the record is not
verified; a token pair is only ever issued to a verified record with
matching credentials. -/
theorem loginClient_error_cases :
    ∀ email pw now db,
    (findByEmail db email = none →
      loginClient email pw now db = Except.error (Err.api 404 "Requested user does not exist"))
    ∧ (∀ c, findByEmail db email = some c → bcompare pw c.password = false →
      loginClient email pw now db = Except.error (Err.api 401 "Invalid user credentials"))
    ∧ (∀ c, findByEmail db email = some c → bcompare pw c.password = true → c.verified = false →
      loginClient email pw now db = Except.error (Err.api 401 "Please verify your email first"))
    ∧ (∀ res db2, loginClient email pw now db = Except.ok (res, db2) →
      ∃ c, findByEmail db email = some c ∧ bcompare pw c.password = true ∧ c.verified = true) := by
  intro email pw now db
  refine ⟨?_, ?_, ?_, ?_⟩
  · intro h
    simp [loginClient, h]
  · intro c hc hbc
    simp [loginClient, hc, hbc]
  · intro c hc hbc hver
    simp [loginClient, hc, hbc, hver]
  · intro res db2 h
    obtain ⟨c, hfe, hbc, hver, _⟩ := loginClient_ok h
    exact ⟨c, hfe, hbc, hver⟩

/-- Witness for claim C4: unknown email gives 404 on an empty store, and
a pending (unverified) client with the right password gets the 401
verification error. -/
theorem loginClient_error_cases_witness :
    loginClient "nobody@example.com" "pw" 3 [] =
      Except.error (Err.api 404 "Requested user does not exist")
    ∧ loginClient "asha@example.com" "secret1" 3 [pendingClient] =
      Except.error (Err.api 401 "Please verify your email first") :=
  ⟨(loginClient_error_cases "nobody@example.com" "pw" 3 []).1 (by decide),
   (loginClient_error_cases "asha@example.com" "secret1" 3 [pendingClient]).2.2.1
     pendingClient (by decide) (by decide) (by decide)⟩

/-! ### Claim C3 -/

/-- Claim C3: refreshAccessToken fails 401 with no presented token; fails
401 when the decoded subject record does not store the presented token;
and on a match it succeeds, rotates both tokens, and the newly stored
refresh token differs from the previously stored one (the issue times
differ). -/
theorem refreshAccessToken_spec :
    ∀ now db,
    refreshAccessToken none now db = Except.error (Err.api 401 "Unauthorized request")
    ∧ (∀ tok did c, jwtVerifyRefresh tok now = some did → findById db did = some c →
      c.refreshToken ≠ some tok →
      refreshAccessToken (some tok) now db =
        Except.error (Err.api 401 "Invalid or expired refresh token"))
    ∧ (∀ iat c, findById db c.id = some c →
      c.refreshToken = some (Token.refresh c.id iat) →
      now < iat + REFRESH_TOKEN_EXPIRY_MS →
      refreshAccessToken (some (Token.refresh c.id iat)) now db =
        Except.ok (Token.access c.id c.email c.tokenVersion now, Token.refresh c.id now,
          updateById db c.id (setRefreshToken (Token.refresh c.id now)))
      ∧ (findById (updateById db c.id (setRefreshToken (Token.refresh c.id now))) c.id).map
          Client.refreshToken = some (some (Token.refresh c.id now))
      ∧ (iat ≠ now → some (Token.refresh c.id iat) ≠ some (Token.refresh c.id now))) := by
  intro now db
  refine ⟨by simp [refreshAccessToken], ?_, ?_⟩
  · intro tok did c hjv hfi hne
    have hb : (c.refreshToken != some tok) = true := by simpa using hne
    simp [refreshAccessToken, hjv, hfi, hb]
  · intro iat c hfi hstored hexp
    have hjv : jwtVerifyRefresh (Token.refresh c.id iat) now = some c.id := by
      simp [jwtVerifyRefresh, hexp]
    have hb : (c.refreshToken != some (Token.refresh c.id iat)) = false := by
      simp [hstored]
    refine ⟨?_, findById_after_setRefreshToken hfi, ?_⟩
    · simp only [refreshAccessToken, hjv, hfi, hb, Bool.false_eq_true, if_false]
      exact generateTokens_spec hfi
    · intro hne
      simp [hne]

/-- A client holding a previously issued refresh token. -/
def loggedClient : Client :=
  { sampleClient with refreshToken := some (Token.refresh 1 5) }

/-- Witness for claim C3: no token gives 401, and the matching stored
token rotates successfully at a concrete later time. -/
theorem refreshAccessToken_spec_witness :
    refreshAccessToken none 9 [loggedClient] =
      Except.error (Err.api 401 "Unauthorized request")
    ∧ refreshAccessToken (some (Token.refresh loggedClient.id 5)) 9 [loggedClient] =
      Except.ok (Token.access loggedClient.id loggedClient.email loggedClient.tokenVersion 9,
        Token.refresh loggedClient.id 9,
        updateById [loggedClient] loggedClient.id
          (setRefreshToken (Token.refresh loggedClient.id 9)))
    ∧ (5 ≠ 9 → some (Token.refresh loggedClient.id 5) ≠ some (Token.refresh loggedClient.id 9)) :=
  ⟨(refreshAccessToken_spec 9 [loggedClient]).1,
   ((refreshAccessToken_spec 9 [loggedClient]).2.2 5 loggedClient (by decide) (by decide)
      (by decide)).1,
   ((refreshAccessToken_spec 9 [loggedClient]).2.2 5 loggedClient (by decide) (by decide)
      (by decide)).2.2⟩

/-! ### Claim C5 -/

/-- Claim C5: both OTP verification entry points fail with the
invalid-or-expired error whenever the supplied (present) code differs
from the stored otp or the stored expiry is earlier than the current
time; on success they set verified and clear both OTP fields, so
repeating the verification with the same code afterwards fails. -/
theorem otp_verification_spec :
    ∀ db now,
    (∀ email code c, email ≠ "" → code ≠ "" → findByEmail db email = some c →
      (c.otp ≠ some code ∨ otpExpiredUndef c.otpExpires now = true) →
      verifyEmail email code now db = Except.error (Err.api 400 "Invalid or expired OTP"))
    ∧ (∀ cid code c, code ≠ "" → findById db cid = some c →
      (c.otp ≠ some code ∨ otpExpiredNull c.otpExpires now = true) →
      verifyOtp cid code now db = Except.error (Err.api 400 "Invalid or expired OTP"))
    ∧ (∀ email code db2 now2, verifyEmail email code now db = Except.ok db2 →
      (∃ c, findByEmail db2 email = some c ∧ c.verified = true
        ∧ c.otp = none ∧ c.otpExpires = none)
      ∧ verifyEmail email code now2 db2 = Except.error (Err.api 400 "Invalid or expired OTP"))
    ∧ (∀ cid code res db2 now2, verifyOtp cid code now db = Except.ok (res, db2) →
      (∃ c, findById db2 cid = some c ∧ c.verified = true
        ∧ c.otp = none ∧ c.otpExpires = none)
      ∧ verifyOtp cid code now2 db2 = Except.error (Err.api 400 "Invalid or expired OTP")) := by
  intro db now
  refine ⟨?_, ?_, ?_, ?_⟩
  · intro email code c he hc hfe hcond
    have hbe : (email == "") = false := by simp [he]
    have hbc : (code == "") = false := by simp [hc]
    have hor : (c.otp != some code || otpExpiredUndef c.otpExpires now) = true := by
      rcases hcond with h | h
      · simp [h]
      · simp [h]
    simp [verifyEmail, hbe, hbc, hfe, hor]
  · intro cid code c hc hfi hcond
    have hbc : (code == "") = false := by simp [hc]
    have hor : (c.otp != some code || otpExpiredNull c.otpExpires now) = true := by
      rcases hcond with h | h
      · simp [h]
      · simp [h]
    simp [verifyOtp, hbc, hfi, hor]
  · intro email code db2 now2 hok
    obtain ⟨he, hc, c0, hfe, hotp, hexp, hdb2⟩ := verifyEmail_ok hok
    have hupd : findByEmail db2 email = some (markVerified c0) := by
      rw [hdb2, findByEmail_updateById db c0.id email markVerified (fun d hd => rfl)]
      rw [hfe]
      simp
    have hbe : (email == "") = false := by simp [he]
    have hbc : (code == "") = false := by simp [hc]
    refine ⟨⟨markVerified c0, hupd, rfl, rfl, rfl⟩, ?_⟩
    simp [verifyEmail, hbe, hbc, hupd, markVerified]
  · intro cid code res db2 now2 hok
    obtain ⟨hc, c0, hfi, hotp, hexp, hres, hdb2⟩ := verifyOtp_ok hok
    have hcid := findById_id hfi
    have hupd : findById db2 cid = some (markVerified c0) := by
      rw [hdb2, findById_updateById db cid cid markVerified (fun d hd => hd)]
      rw [hfi]
      simp [hcid]
    have hbc : (code == "") = false := by simp [hc]
    refine ⟨⟨markVerified c0, hupd, rfl, rfl, rfl⟩, ?_⟩
    simp [verifyOtp, hbc, hupd, markVerified]

/-- Witness for claim C5: a wrong code fails, and after a successful
verification the record is verified with cleared OTP fields and the same
code no longer verifies. -/
theorem otp_verification_spec_witness :
    verifyOtp 1 "000000" 500 [pendingClient] =
      Except.error (Err.api 400 "Invalid or expired OTP")
    ∧ ((∃ c, findById [markVerified pendingClient] 1 = some c ∧ c.verified = true
        ∧ c.otp = none ∧ c.otpExpires = none)
      ∧ verifyOtp 1 "123456" 600 [markVerified pendingClient] =
        Except.error (Err.api 400 "Invalid or expired OTP")) :=
  ⟨(otp_verification_spec [pendingClient] 500).2.1 1 "000000" pendingClient (by decide)
      (by decide) (Or.inl (by decide)),
   (otp_verification_spec [pendingClient] 500).2.2.2 1 "123456"
      { clientId := 1, accessToken := Token.accessBare 1 500,
        refreshToken := Token.refresh 1 500 }
      [markVerified pendingClient] 600 (by decide)⟩

/-! ### Claim C8 -/

/-- Claim C8: the refresh token minted by the id-keyed verifyOtp is never
written to the client record: the stored refreshToken is unchanged by the
operation; hence a later refreshAccessToken call presenting the token
verifyOtp returned (while its signature is still valid) fails with 401
unless that token happens to equal the separately stored one. -/
theorem verifyOtp_token_not_persisted :
    ∀ cid code now db res db2 c, findById db cid = some c →
      verifyOtp cid code now db = Except.ok (res, db2) →
      res.refreshToken = Token.refresh cid now
      ∧ (findById db2 cid).map Client.refreshToken = some c.refreshToken
      ∧ (∀ now2, now2 < now + REFRESH_TOKEN_EXPIRY_MS →
          c.refreshToken ≠ some (Token.refresh cid now) →
          refreshAccessToken (some (Token.refresh cid now)) now2 db2 =
            Except.error (Err.api 401 "Invalid or expired refresh token")) := by
  intro cid code now db res db2 c hfi hok
  obtain ⟨hcode, c0, hfi0, hotp, hexp, hres, hdb2⟩ := verifyOtp_ok hok
  rw [hfi] at hfi0
  injection hfi0 with heq
  subst heq
  have hcid := findById_id hfi
  have hupd : findById db2 cid = some (markVerified c) := by
    rw [hdb2, findById_updateById db cid cid markVerified (fun d hd => hd)]
    rw [hfi]
    simp [hcid]
  refine ⟨by rw [hres], ?_, ?_⟩
  · rw [hupd]
    rfl
  · intro now2 hlt hne
    have hjv : jwtVerifyRefresh (Token.refresh cid now) now2 = some cid := by
      simp [jwtVerifyRefresh, hlt]
    have hb : ((markVerified c).refreshToken != some (Token.refresh cid now)) = true := by
      simpa [markVerified] using hne
    simp [refreshAccessToken, hjv, hupd, hb]

/-- Witness for claim C8: after the pending client verifies, presenting
the token verifyOtp returned to refreshAccessToken fails with 401. -/
theorem verifyOtp_token_not_persisted_witness :
    refreshAccessToken (some (Token.refresh 1 500)) 600 [markVerified pendingClient] =
      Except.error (Err.api 401 "Invalid or expired refresh token") :=
  (verifyOtp_token_not_persisted 1 "123456" 500 [pendingClient]
    { clientId := 1, accessToken := Token.accessBare 1 500,
      refreshToken := Token.refresh 1 500 }
    [markVerified pendingClient] pendingClient (by decide) (by decide)).2.2 600
    (by decide) (by decide)

/-! ### Claim C9 -/

/-- The bcrypt model never fixes a string: the hash is strictly longer. -/
theorem bhash_ne_self (p : String) : bhash p ≠ p := by
  intro h
  have hlen := congrArg String.length h
  rw [bhash, String.length_append] at hlen
  have h7 : ("$2b$10$" : String).length = 7 := rfl
  rw [h7] at hlen
  omega

/-- The bcrypt model is injective. -/
theorem bhash_injective {a b : String} (h : bhash a = bhash b) : a = b := by
  have hd := congrArg String.data h
  simp only [bhash, String.data_append] at hd
  exact String.ext (List.append_cancel_left hd)

/-- Verifying a plaintext against its double hash fails. -/
theorem bcompare_double_hash (p : String) : bcompare p (bhash (bhash p)) = false := by
  rw [bcompare, beq_eq_false_iff_ne]
  intro h
  exact bhash_ne_self p (bhash_injective h)

/-- Claim C9: an updateClient call supplying a non-empty password hashes
it twice (once in the controller, once more in the pre-save hook), so the
stored password is the double hash, password verification with the
original plaintext fails, and login with that plaintext fails 401. -/
theorem updateClient_double_hashes_password :
    ∀ cid inp av db v db2, inp.password ≠ "" →
      updateClient cid inp av db = Except.ok (v, db2) →
      v.password = bhash (bhash inp.password)
      ∧ (findById db2 cid).map Client.password = some (bhash (bhash inp.password))
      ∧ bcompare inp.password v.password = false
      ∧ (∀ now c2, findByEmail db2 inp.email = some c2 →
          c2.password = bhash (bhash inp.password) →
          loginClient inp.email inp.password now db2 =
            Except.error (Err.api 401 "Invalid user credentials")) := by
  intro cid inp av db v db2 hpw hok
  obtain ⟨c, hfi, hvid, hotp, hoexp, hpass, hdb2⟩ := updateClient_ok hok
  have hvp := hpass hpw
  have hcid := findById_id hfi
  refine ⟨hvp, ?_, ?_, ?_⟩
  · rw [hdb2, findById_updateById db cid cid (fun _ => v) (fun d hd => hvid)]
    rw [hfi]
    simp [hcid, hvp]
  · rw [hvp]
    exact bcompare_double_hash inp.password
  · intro now c2 hfe2 hc2p
    have hbc : bcompare inp.password c2.password = false := by
      rw [hc2p]
      exact bcompare_double_hash inp.password
    simp [loginClient, hfe2, hbc]

/-- The update request used in the concrete instantiation. -/
def updInput : RegisterInput := { sampleInput with password := "newpass" }

/-- The stored record after that update: the password is double hashed. -/
def updatedClient : Client := { sampleClient with password := bhash (bhash "newpass") }

/-- Witness for claim C9 at a concrete update: the saved password is the
double hash, comparing the plaintext fails, and login fails 401. -/
theorem updateClient_double_hashes_password_witness :
    updatedClient.password = bhash (bhash updInput.password)
    ∧ bcompare updInput.password updatedClient.password = false
    ∧ loginClient updInput.email updInput.password 8 [updatedClient] =
        Except.error (Err.api 401 "Invalid user credentials") :=
  ⟨(updateClient_double_hashes_password 1 updInput none [sampleClient]
      updatedClient [updatedClient] (by decide) (by decide)).1,
   (updateClient_double_hashes_password 1 updInput none [sampleClient]
      updatedClient [updatedClient] (by decide) (by decide)).2.2.1,
   (updateClient_double_hashes_password 1 updInput none [sampleClient]
      updatedClient [updatedClient] (by decide) (by decide)).2.2.2 8 updatedClient
      (by decide) (by decide)⟩

/-! ### Claim C6 -/

/-- The per-record invariant: otp and otpExpires are set together or
cleared together. -/
def otpTogether (c : Client) : Bool := c.otp.isSome == c.otpExpires.isSome

/-- The invariant over the whole store. -/
abbrev dbOtpSync (db : DB) : Prop := ∀ c ∈ db, otpTogether c = true

/-- A save preserves the store invariant when the written document
preserves it. -/
theorem dbOtpSync_updateById {db : DB} {i : Nat} {f : Client → Client}
    (hdb : dbOtpSync db) (hf : ∀ c, otpTogether c = true → otpTogether (f c) = true) :
    dbOtpSync (updateById db i f) := by
  intro c hc
  obtain ⟨d, hd, rfl⟩ := List.mem_map.mp hc
  by_cases h : d.id = i
  · simpa [h] using hf d (hdb d hd)
  · simpa [h] using hdb d hd

/-- Claim C6: every operation preserves the invariant that otp and
otpExpires are set together or cleared together; registration sets both,
with the expiry five minutes ahead, and both verification paths clear
both. -/
theorem otp_fields_move_together :
    (∀ inp av rand newId now db res db2,
      registerClient inp av rand newId now db = Except.ok (res, db2) →
      res.client.otp = some (generateOTP rand)
      ∧ res.client.otpExpires = some (now + 5 * 60 * 1000)
      ∧ (dbOtpSync db → dbOtpSync db2))
    ∧ (∀ email code now db db2, verifyEmail email code now db = Except.ok db2 →
      dbOtpSync db → dbOtpSync db2)
    ∧ (∀ cid code now db res db2, verifyOtp cid code now db = Except.ok (res, db2) →
      dbOtpSync db → dbOtpSync db2)
    ∧ (∀ email pw now db res db2, loginClient email pw now db = Except.ok (res, db2) →
      dbOtpSync db → dbOtpSync db2)
    ∧ (∀ cid db, dbOtpSync db → dbOtpSync (logoutClient cid db))
    ∧ (∀ cid inp av db v db2, updateClient cid inp av db = Except.ok (v, db2) →
      dbOtpSync db → dbOtpSync db2)
    ∧ (∀ tokIn now db atk rtk db2,
      refreshAccessToken tokIn now db = Except.ok (atk, rtk, db2) →
      dbOtpSync db → dbOtpSync db2) := by
  refine ⟨?_, ?_, ?_, ?_, ?_, ?_, ?_⟩
  · intro inp av rand newId now db res db2 h
    obtain ⟨hval, hconf, hclient, hrtk, hdb2⟩ := registerClient_ok h
    refine ⟨by rw [hclient]; rfl, by rw [hclient]; rfl, ?_⟩
    intro hsync
    rw [hdb2]
    refine dbOtpSync_updateById ?_ (fun c hc => hc)
    intro c hc
    rcases List.mem_append.mp hc with hin | hin
    · exact hsync c hin
    · rw [List.mem_singleton.mp hin]
      rfl
  · intro email code now db db2 h hsync
    obtain ⟨he, hc, c0, hfe, hotp, hexp, hdb2⟩ := verifyEmail_ok h
    rw [hdb2]
    exact dbOtpSync_updateById hsync (fun c hc => rfl)
  · intro cid code now db res db2 h hsync
    obtain ⟨hc, c0, hfi, hotp, hexp, hres, hdb2⟩ := verifyOtp_ok h
    rw [hdb2]
    exact dbOtpSync_updateById hsync (fun c hc => rfl)
  · intro email pw now db res db2 h hsync
    obtain ⟨c, hfe, hbc, hver, hrtk, hdb2, hcv⟩ := loginClient_ok h
    rw [hdb2]
    exact dbOtpSync_updateById hsync (fun c hc => hc)
  · intro cid db hsync
    exact dbOtpSync_updateById hsync (fun c hc => hc)
  · intro cid inp av db v db2 h hsync
    obtain ⟨c, hfi, hvid, hotp, hoexp, hpass, hdb2⟩ := updateClient_ok h
    have hcv : otpTogether c = true := hsync c (mem_of_findById hfi)
    have hv : otpTogether v = true := by
      rw [otpTogether, hotp, hoexp]
      rw [otpTogether] at hcv
      exact hcv
    rw [hdb2]
    exact dbOtpSync_updateById hsync (fun d hd => hv)
  · intro tokIn now db atk rtk db2 h hsync
    obtain ⟨tok, c, htok, hjv, hfi, hstored, hrtk, hdb2⟩ := refreshAccessToken_ok h
    rw [hdb2]
    exact dbOtpSync_updateById hsync (fun c hc => hc)

/-- Witness for claim C6 at a concrete registration and logout. -/
theorem otp_fields_move_together_witness :
    ((mkNewClient sampleInput none 42 1 100).otp = some (generateOTP 42)
      ∧ (mkNewClient sampleInput none 42 1 100).otpExpires = some (100 + 5 * 60 * 1000)
      ∧ dbOtpSync [setRefreshToken (Token.refresh 1 100) (mkNewClient sampleInput none 42 1 100)])
    ∧ dbOtpSync (logoutClient 1 [sampleClient]) :=
  ⟨⟨(otp_fields_move_together.1 sampleInput none 42 1 100 []
      { client := mkNewClient sampleInput none 42 1 100,
        accessToken := Token.access 1 "asha@example.com" 0 100,
        refreshToken := Token.refresh 1 100 }
      [setRefreshToken (Token.refresh 1 100) (mkNewClient sampleInput none 42 1 100)]
      (by decide)).1,
    (otp_fields_move_together.1 sampleInput none 42 1 100 []
      { client := mkNewClient sampleInput none 42 1 100,
        accessToken := Token.access 1 "asha@example.com" 0 100,
        refreshToken := Token.refresh 1 100 }
      [setRefreshToken (Token.refresh 1 100) (mkNewClient sampleInput none 42 1 100)]
      (by decide)).2.1,
    (otp_fields_move_together.1 sampleInput none 42 1 100 []
      { client := mkNewClient sampleInput none 42 1 100,
        accessToken := Token.access 1 "asha@example.com" 0 100,
        refreshToken := Token.refresh 1 100 }
      [setRefreshToken (Token.refresh 1 100) (mkNewClient sampleInput none 42 1 100)]
      (by decide)).2.2 (by decide)⟩,
   otp_fields_move_together.2.2.2.2.1 1 [sampleClient] (by decide)⟩

/-! ### Claim C7 -/

/-- Inserting into the sorted list adds exactly one element. -/
theorem length_insertSorted (le : Client → Client → Bool) (c : Client) (l : List Client) :
    (insertSorted le c l).length = l.length + 1 := by
  induction l with
  | nil => rfl
  | cons d ds ih =>
    simp only [insertSorted]
    split
    · simp
    · simp [ih]

/-- The store-level sort is a permutation in particular in length. -/
theorem length_sortClients (le : Client → Client → Bool) (l : List Client) :
    (sortClients le l).length = l.length := by
  induction l with
  | nil => rfl
  | cons c cs ih =>
    simp only [sortClients, List.foldr_cons] at *
    rw [length_insertSorted, ih]
    rfl

/-- A concrete client for the 25-record listing instance. -/
def mkListClient (i : Nat) : Client :=
  { id := i, name := "Test", email := toString i, age := 30, gender := "Male",
    password := bhash "pw", phone := toString i, avatar := "",
    verified := true, refreshToken := none, verificationToken := none,
    tokenVersion := 0, otp := none, otpExpires := none }

/-- A store of 25 records all matching the empty filter. -/
def db25 : DB := (List.range 25).map mkListClient

/-- Claim C7: on 25 matching records with page=2 and limit=10,
getAllClients returns exactly 10 records with totalPages=3 and both page
flags true; in general the listing takes limit records after skipping
(page-1)*limit of the filtered total, totalPages is the ceiling of
totalClients/limit, hasNextPage iff page < totalPages and hasPrevPage iff
page > 1. -/
theorem getAllClients_pagination :
    ((getAllClients 2 10 none none (fun _ _ => true) db25).1.length = 10
      ∧ (getAllClients 2 10 none none (fun _ _ => true) db25).2 =
        { currentPage := 2, totalPages := 3, totalClients := 25,
          hasNextPage := true, hasPrevPage := true })
    ∧ (∀ page limit vf gf sortLe db,
      (getAllClients page limit vf gf sortLe db).1.length =
        min limit ((db.filter (matchesFilter vf gf)).length - (page - 1) * limit)
      ∧ (getAllClients page limit vf gf sortLe db).2.totalPages =
        ((db.filter (matchesFilter vf gf)).length + limit - 1) / limit
      ∧ ((getAllClients page limit vf gf sortLe db).2.hasNextPage = true ↔
        page < (getAllClients page limit vf gf sortLe db).2.totalPages)
      ∧ ((getAllClients page limit vf gf sortLe db).2.hasPrevPage = true ↔ 1 < page))
    ∧ (∀ page limit vf gf sortLe db, 0 < limit →
      (db.filter (matchesFilter vf gf)).length ≤
        (getAllClients page limit vf gf sortLe db).2.totalPages * limit
      ∧ (getAllClients page limit vf gf sortLe db).2.totalPages * limit <
        (db.filter (matchesFilter vf gf)).length + limit) := by
  refine ⟨by decide, ?_, ?_⟩
  · intro page limit vf gf sortLe db
    refine ⟨?_, rfl, ?_, ?_⟩
    · simp [getAllClients, List.length_take, List.length_drop, length_sortClients,
        Nat.min_comm]
    · simp [getAllClients]
    · simp [getAllClients]
  · intro page limit vf gf sortLe db hl
    have hdm := Nat.div_add_mod ((db.filter (matchesFilter vf gf)).length + limit - 1) limit
    have hmod := Nat.mod_lt ((db.filter (matchesFilter vf gf)).length + limit - 1) hl
    rw [Nat.mul_comm] at hdm
    constructor
    · simp only [getAllClients]
      omega
    · simp only [getAllClients]
      omega

/-- Witness for claim C7: the ceiling bounds at the concrete instance. -/
theorem getAllClients_pagination_witness :
    (db25.filter (matchesFilter none none)).length ≤
      (getAllClients 2 10 none none (fun _ _ => true) db25).2.totalPages * 10
    ∧ (getAllClients 2 10 none none (fun _ _ => true) db25).2.totalPages * 10 <
      (db25.filter (matchesFilter none none)).length + 10 :=
  getAllClients_pagination.2.2 2 10 none none (fun _ _ => true) db25 (by decide)
